import Mathlib

/-!
Shallow embedding of the state-diff core of `tracker.py` (Steam Status
Monitor).  The embedded code is `SteamMonitor._check_for_changes`,
`SteamMonitor._check_profile_changes`, `SteamMonitor._format_duration`,
the status table `Style.STATUS_TEXT`, and the sleep of the monitoring
loop in `SteamMonitor.start_monitoring`.

Modelling conventions:
* Timestamps are natural numbers counting whole seconds of a monotone
  clock; `datetime` subtraction in the code becomes `now - t` on `Nat`
  (the program only subtracts an earlier `datetime.now()` from a later
  one).
* A Python `str` field that may be `None` is `Option String`; a raw
  dictionary value absent from the API response is `none`, a present
  empty string is `some ""`.
* A failed fetch and an entity missing from the API response both make
  `get_player_summary` return `None`; both are therefore the `none`
  case of the snapshot argument.
* The log lines emitted by `Logger.log` are modelled as structured
  events, one constructor per kind of message the diff code can emit.
-/

namespace SteamTracker

/-- Embeds the mutable fields of the Python `UserProfile` dataclass that
the diff code reads and writes. -/
structure UserProfile where
  steamid : String
  personaname : Option String
  realname : Option String
  country : Option String
  avatar : Option String
  profile_url : Option String
  persona_state : Int
  game_name : Option String
  game_start_time : Option Nat
deriving DecidableEq, Repr

/-- Embeds the player dictionary returned by `GetPlayerSummaries`,
restricted to the keys `_check_for_changes` and
`_check_profile_changes` read with `.get`. -/
structure SnapshotData where
  personastate : Option Int
  gameextrainfo : Option String
  personaname : Option String
  realname : Option String
  loccountrycode : Option String
  profileurl : Option String
  avatarfull : Option String
deriving DecidableEq, Repr

/-- One structured event per log line the diff code can produce:
`presenceChanged` for "X is now S (was T)", `sessionEnded` for
"stopped playing ... (played for D)", `sessionStarted` for
"started playing ...", `metadataChanged` for "changed F: O -> N". -/
inductive Event where
  | presenceChanged (oldText newText : String)
  | sessionEnded (label : String) (duration : String)
  | sessionStarted (label : String)
  | metadataChanged (field : String) (oldVal newVal : Option String)
deriving DecidableEq, Repr

/-- True of the `presenceChanged` events. -/
def Event.isPresenceChanged : Event → Bool
  | .presenceChanged _ _ => true
  | _ => false

/-- True of the `sessionStarted` and `sessionEnded` events. -/
def Event.isSessionEvent : Event → Bool
  | .sessionStarted _ => true
  | .sessionEnded _ _ => true
  | _ => false

/-- True of the `sessionEnded` events. -/
def Event.isSessionEnded : Event → Bool
  | .sessionEnded _ _ => true
  | _ => false

/-- True of the `metadataChanged` events. -/
def Event.isMetadataChanged : Event → Bool
  | .metadataChanged _ _ _ => true
  | _ => false

/-- The metadata-change events of a list that concern one given field. -/
def metaEventsFor (fieldName : String) (evs : List Event) : List Event :=
  evs.filter fun e =>
    match e with
    | .metadataChanged f _ _ => f == fieldName
    | _ => false

/-- Embeds `Style.STATUS_TEXT.get(code, 'Unknown')`: the dictionary
maps 0..6 to status strings and every other code falls back to
"Unknown". -/
def statusTextGet (s : Int) : String :=
  if s = 0 then "Offline"
  else if s = 1 then "Online"
  else if s = 2 then "Busy"
  else if s = 3 then "Away"
  else if s = 4 then "Snooze"
  else if s = 5 then "Looking to trade"
  else if s = 6 then "Looking to play"
  else "Unknown"

/-- Python truthiness of an optional string: `None` and `""` are falsy,
every other string is truthy. -/
def truthy (v : Option String) : Bool :=
  match v with
  | none => false
  | some s => s ≠ ""

/-- Embeds the normalization in `_check_profile_changes`:
`value if value not in ("", None) else None`. -/
def normVal (v : Option String) : Option String :=
  match v with
  | none => none
  | some s => if s = "" then none else some s

/-- Embeds the `parts` list of `_format_duration`: hours when nonzero,
minutes when nonzero, seconds only when nonzero and no earlier part was
appended.  `totalSeconds / 3600` is `hours`, `totalSeconds % 3600 / 60`
is `minutes`, `totalSeconds % 3600 % 60` is `seconds` of the double
`divmod` in the code. -/
def durationParts (totalSeconds : Nat) : List String :=
  (if totalSeconds / 3600 ≠ 0 then [toString (totalSeconds / 3600) ++ "h"] else []) ++
  (if totalSeconds % 3600 / 60 ≠ 0 then [toString (totalSeconds % 3600 / 60) ++ "m"] else []) ++
  (if totalSeconds % 3600 % 60 ≠ 0 ∧ totalSeconds / 3600 = 0 ∧ totalSeconds % 3600 / 60 = 0
    then [toString (totalSeconds % 3600 % 60) ++ "s"] else [])

/-- Embeds `SteamMonitor._format_duration`:
`" ".join(parts) if parts else "0s"`. -/
def formatDuration (totalSeconds : Nat) : String :=
  if durationParts totalSeconds = [] then "0s"
  else String.intercalate " " (durationParts totalSeconds)

/-- Embeds the "Check status changes" block of `_check_for_changes`
(lines 261-270): compares the raw integer `personastate` (defaulted to
0) with the stored one, logs old and new rendered through the status
table, and stores the new raw code. -/
def checkStatus (p : UserProfile) (d : SnapshotData) : UserProfile × List Event :=
  let newStatus := d.personastate.getD 0
  if newStatus ≠ p.persona_state then
    ({ p with persona_state := newStatus },
      [Event.presenceChanged (statusTextGet p.persona_state) (statusTextGet newStatus)])
  else (p, [])

/-- Embeds the "Check game changes" block of `_check_for_changes`
(lines 272-291): on a truthy-old/falsy-new transition logs a stop
message whose duration comes from `game_start_time` (or the sentinel
"Unknown" when that is `None`); otherwise, when the new value is
truthy, logs a start message and records `game_start_time := now`; in
every changed case stores the new `gameextrainfo` value. -/
def checkGame (p : UserProfile) (d : SnapshotData) (now : Nat) : UserProfile × List Event :=
  let newGame := d.gameextrainfo
  if newGame ≠ p.game_name then
    if truthy p.game_name && !truthy newGame then
      let duration :=
        match p.game_start_time with
        | some t => formatDuration (now - t)
        | none => "Unknown"
      ({ p with game_name := newGame },
        [Event.sessionEnded (p.game_name.getD "") duration])
    else if truthy newGame then
      ({ p with game_name := newGame, game_start_time := some now },
        [Event.sessionStarted (newGame.getD "")])
    else
      ({ p with game_name := newGame }, [])
  else (p, [])

/-- Embeds one iteration of the loop in `_check_profile_changes`:
normalize the stored and fetched values, and on inequality log the
change and store the normalized new value (otherwise keep the stored
value as it was). -/
def diffField (fieldName : String) (oldVal newVal : Option String) :
    Option String × List Event :=
  let oldNorm := normVal oldVal
  let newNorm := normVal newVal
  if oldNorm ≠ newNorm then
    (newNorm, [Event.metadataChanged fieldName oldNorm newNorm])
  else (oldVal, [])

/-- Embeds `SteamMonitor._check_profile_changes`: the `changes` list is
built up front from the stored values, so the five field comparisons
are independent; events are logged in the list's order. -/
def checkProfileChanges (p : UserProfile) (d : SnapshotData) : UserProfile × List Event :=
  let r1 := diffField "nickname" p.personaname d.personaname
  let r2 := diffField "real name" p.realname d.realname
  let r3 := diffField "country" p.country d.loccountrycode
  let r4 := diffField "profile URL" p.profile_url d.profileurl
  let r5 := diffField "avatar" p.avatar d.avatarfull
  ({ p with personaname := r1.1, realname := r2.1, country := r3.1,
            profile_url := r4.1, avatar := r5.1 },
    r1.2 ++ r2.2 ++ r3.2 ++ r4.2 ++ r5.2)

/-- Embeds `SteamMonitor._check_for_changes` as a function of the
stored profile, the fetch result (`none` when `get_player_summary`
returned `None`: transport failure, rate limit, or the player absent
from the response), and the cycle's `current_time`.  Returns the
updated profile together with the logged events in order. -/
def checkForChanges (p : UserProfile) (fetched : Option SnapshotData) (now : Nat) :
    UserProfile × List Event :=
  match fetched with
  | none => (p, [])
  | some d =>
    let r1 := checkStatus p d
    let r2 := checkGame r1.1 d now
    let r3 := checkProfileChanges r2.1 d
    (r3.1, r1.2 ++ r2.2 ++ r3.2)

/-- Embeds the suspension at the end of each cycle of
`start_monitoring` (line 242): `time.sleep(self.config.check_interval)`.
The time already spent in the cycle is not consulted; the parameter
`elapsedInCycle` records that the code ignores it. -/
def loopSleepDuration (checkInterval : Nat) (elapsedInCycle : Nat) : Nat :=
  checkInterval

/-- Modelled from the spec: the sleep duration the spec prescribes,
`max(0, configured_interval - (now - cycle_start))`, with
`elapsedInCycle = now - cycle_start`. -/
def specSleepDuration (checkInterval : Nat) (elapsedInCycle : Nat) : Int :=
  max 0 ((checkInterval : Int) - (elapsedInCycle : Int))

/-- The start time of the n-th monitoring cycle, given the time each
cycle spends fetching and diffing: each cycle runs, then sleeps for
`loopSleepDuration`. -/
def cycleStart (checkInterval : Nat) (elapsed : Nat → Nat) : Nat → Nat
  | 0 => 0
  | n + 1 => cycleStart checkInterval elapsed n + elapsed n
      + loopSleepDuration checkInterval (elapsed n)

/-! ### Concrete states and snapshots used as test inputs -/

/-- A stored state: online, in "Game A" since second 100. -/
def pGameA : UserProfile :=
  { steamid := "76561198000000001", personaname := some "Alice", realname := none,
    country := some "US", avatar := none, profile_url := none,
    persona_state := 1, game_name := some "Game A", game_start_time := some 100 }

/-- A snapshot of the same account now playing "Game B", all else equal. -/
def dGameB : SnapshotData :=
  { personastate := some 1, gameextrainfo := some "Game B", personaname := some "Alice",
    realname := none, loccountrycode := some "US", profileurl := none, avatarfull := none }

/-- A snapshot of the same account with no game, all else equal. -/
def dNoGame : SnapshotData :=
  { personastate := some 1, gameextrainfo := none, personaname := some "Alice",
    realname := none, loccountrycode := some "US", profileurl := none, avatarfull := none }

/-- A stored state: offline, no game. -/
def pOffline : UserProfile :=
  { steamid := "76561198000000001", personaname := some "Alice", realname := none,
    country := some "US", avatar := none, profile_url := none,
    persona_state := 0, game_name := none, game_start_time := none }

/-- A snapshot of the same account having come online, all else equal. -/
def dOnlineSnap : SnapshotData :=
  { personastate := some 1, gameextrainfo := none, personaname := some "Alice",
    realname := none, loccountrycode := some "US", profileurl := none, avatarfull := none }

/-- A snapshot identical to `pOffline` except for the country code. -/
def dCountryTR : SnapshotData :=
  { personastate := some 0, gameextrainfo := none, personaname := some "Alice",
    realname := none, loccountrycode := some "TR", profileurl := none, avatarfull := none }

/-- A stored state whose raw status code 7 lies outside the mapped range. -/
def pState7 : UserProfile :=
  { steamid := "76561198000000001", personaname := some "Alice", realname := none,
    country := some "US", avatar := none, profile_url := none,
    persona_state := 7, game_name := none, game_start_time := none }

/-- A snapshot with raw status code 9, also outside the mapped range. -/
def dState9 : SnapshotData :=
  { personastate := some 9, gameextrainfo := none, personaname := some "Alice",
    realname := none, loccountrycode := some "US", profileurl := none, avatarfull := none }

/-! ### Helper lemmas characterizing the embedded functions -/

/-- Every raw code outside the dictionary's keys 0..6 renders as the
fallback "Unknown". -/
lemma statusTextGet_unmapped (s : Int) (h : s < 0 ∨ 6 < s) :
    statusTextGet s = "Unknown" := by
  unfold statusTextGet
  split_ifs <;> first | rfl | omega

/-- The status block always leaves the raw fetched code (defaulted to 0)
in the stored state. -/
lemma checkStatus_fst (p : UserProfile) (d : SnapshotData) :
    (checkStatus p d).1 = { p with persona_state := d.personastate.getD 0 } := by
  by_cases h : d.personastate.getD 0 = p.persona_state
  · simp [checkStatus, h]
  · simp [checkStatus, h]

/-- The status block emits one rendered presence-change event exactly
when the raw codes differ. -/
lemma checkStatus_snd (p : UserProfile) (d : SnapshotData) :
    (checkStatus p d).2 =
      if d.personastate.getD 0 = p.persona_state then []
      else [Event.presenceChanged (statusTextGet p.persona_state)
              (statusTextGet (d.personastate.getD 0))] := by
  by_cases h : d.personastate.getD 0 = p.persona_state
  · simp [checkStatus, h]
  · simp [checkStatus, h]

/-- The game block always stores the fetched `gameextrainfo`, and
resets the start timestamp exactly when a truthy new value replaces a
different stored one. -/
lemma checkGame_fst (p : UserProfile) (d : SnapshotData) (now : Nat) :
    (checkGame p d now).1 =
      { p with game_name := d.gameextrainfo,
               game_start_time :=
                 if d.gameextrainfo ≠ p.game_name ∧ truthy d.gameextrainfo = true then some now
                 else p.game_start_time } := by
  by_cases h1 : d.gameextrainfo = p.game_name
  · simp [checkGame, h1]
  · by_cases h2 : truthy d.gameextrainfo = true
    · simp [checkGame, h1, h2]
    · by_cases h3 : truthy p.game_name = true
      · simp [checkGame, h1, h2, h3]
      · simp [checkGame, h1, h2, h3]

/-- The game block's events: none when unchanged, one ended event on a
truthy-to-falsy transition, one started event when the new value is
truthy, none otherwise. -/
lemma checkGame_snd (p : UserProfile) (d : SnapshotData) (now : Nat) :
    (checkGame p d now).2 =
      if d.gameextrainfo = p.game_name then []
      else if truthy p.game_name && !truthy d.gameextrainfo then
        [Event.sessionEnded (p.game_name.getD "")
          (match p.game_start_time with
            | some t => formatDuration (now - t)
            | none => "Unknown")]
      else if truthy d.gameextrainfo then
        [Event.sessionStarted (d.gameextrainfo.getD "")]
      else [] := by
  by_cases h1 : d.gameextrainfo = p.game_name
  · simp [checkGame, h1]
  · by_cases h2 : (truthy p.game_name && !truthy d.gameextrainfo) = true
    · simp [checkGame, h1, h2]
    · by_cases h3 : truthy d.gameextrainfo = true
      · simp [checkGame, h1, h2, h3]
      · have h3' : truthy d.gameextrainfo = false := by simpa using h3
        have h4 : truthy p.game_name = false := by
          cases hgb : truthy p.game_name
          · rfl
          · exact absurd (by rw [hgb, h3']; rfl) h2
        simp [checkGame, h1, h3', h4]

/-- One field comparison, written as a pair of conditionals. -/
lemma diffField_eq (fieldName : String) (oldVal newVal : Option String) :
    diffField fieldName oldVal newVal =
      (if normVal oldVal = normVal newVal then oldVal else normVal newVal,
       if normVal oldVal = normVal newVal then []
       else [Event.metadataChanged fieldName (normVal oldVal) (normVal newVal)]) := by
  by_cases h : normVal oldVal = normVal newVal
  · simp [diffField, h]
  · simp [diffField, h]

/-- Normalization is idempotent. -/
lemma normVal_idem (v : Option String) : normVal (normVal v) = normVal v := by
  unfold normVal
  match v with
  | none => rfl
  | some s =>
    by_cases h : s = ""
    · simp [h]
    · simp [h]

/-- The stored value after one field comparison normalizes to the
fetched value's normalization. -/
lemma diffField_fst_norm (fieldName : String) (oldVal newVal : Option String) :
    normVal (diffField fieldName oldVal newVal).1 = normVal newVal := by
  rw [diffField_eq]
  split
  · next h => simpa using h
  · exact normVal_idem newVal

/-- A field comparison with normalization-equal arguments changes
nothing and emits nothing. -/
lemma diffField_eq_of_norm (fieldName : String) (oldVal newVal : Option String)
    (h : normVal oldVal = normVal newVal) :
    diffField fieldName oldVal newVal = (oldVal, []) := by
  rw [diffField_eq, if_pos h, if_pos h]

/-- The metadata block updates the five stored fields from the five
independent field comparisons. -/
lemma checkProfileChanges_fst (p : UserProfile) (d : SnapshotData) :
    (checkProfileChanges p d).1 =
      { p with personaname := (diffField "nickname" p.personaname d.personaname).1,
               realname := (diffField "real name" p.realname d.realname).1,
               country := (diffField "country" p.country d.loccountrycode).1,
               profile_url := (diffField "profile URL" p.profile_url d.profileurl).1,
               avatar := (diffField "avatar" p.avatar d.avatarfull).1 } := rfl

/-- The metadata block's events are the concatenation of the five
field comparisons' events, in the order of the `changes` list. -/
lemma checkProfileChanges_snd (p : UserProfile) (d : SnapshotData) :
    (checkProfileChanges p d).2 =
      (diffField "nickname" p.personaname d.personaname).2 ++
      (diffField "real name" p.realname d.realname).2 ++
      (diffField "country" p.country d.loccountrycode).2 ++
      (diffField "profile URL" p.profile_url d.profileurl).2 ++
      (diffField "avatar" p.avatar d.avatarfull).2 := rfl

/-- The whole diff cycle on a successful fetch: status block, then game
block, then metadata block, threading the state and concatenating the
events. -/
lemma checkForChanges_some (p : UserProfile) (d : SnapshotData) (now : Nat) :
    checkForChanges p (some d) now =
      ((checkProfileChanges (checkGame (checkStatus p d).1 d now).1 d).1,
        (checkStatus p d).2 ++ (checkGame (checkStatus p d).1 d now).2 ++
          (checkProfileChanges (checkGame (checkStatus p d).1 d now).1 d).2) := rfl

/-- Joining a one-part list is that part. -/
lemma intercalate_single (a : String) : String.intercalate " " [a] = a := rfl

/-- Joining a two-part list inserts one space. -/
lemma intercalate_pair (a b : String) :
    String.intercalate " " [a, b] = (a ++ " ") ++ b := rfl

/-- Closed-form characterization of `_format_duration`: hours (with
minutes appended only when nonzero) from one hour up, minutes alone
from one minute up, seconds alone below one minute, and "0s" at zero.
In particular the rendering never uses more than two units. -/
lemma formatDuration_eq (ts : Nat) :
    formatDuration ts =
      if 3600 ≤ ts then
        if ts % 3600 / 60 = 0 then toString (ts / 3600) ++ "h"
        else (toString (ts / 3600) ++ "h") ++ " " ++ (toString (ts % 3600 / 60) ++ "m")
      else if 60 ≤ ts then toString (ts / 60) ++ "m"
      else if ts = 0 then "0s"
      else toString ts ++ "s" := by
  by_cases hh : ts / 3600 = 0
  · by_cases hm : ts % 3600 / 60 = 0
    · by_cases hs : ts % 3600 % 60 = 0
      · have h0 : ts = 0 := by omega
        subst h0
        rfl
      · have h1 : ¬ 3600 ≤ ts := by omega
        have h2 : ¬ 60 ≤ ts := by omega
        have h3 : ¬ ts = 0 := by omega
        have hss : ts % 3600 % 60 = ts := by omega
        simp [formatDuration, durationParts, hh, hm, hs, h1, h2, h3, hss,
          intercalate_single]
    · have h1 : ¬ 3600 ≤ ts := by omega
      have h2 : 60 ≤ ts := by omega
      have hmm : ts % 3600 / 60 = ts / 60 := by omega
      have hm' : ¬ ts / 60 = 0 := by omega
      simp [formatDuration, durationParts, hh, hm, h1, h2, hmm, hm',
        intercalate_single]
  · by_cases hm : ts % 3600 / 60 = 0
    · have h1 : 3600 ≤ ts := by omega
      simp [formatDuration, durationParts, hh, hm, h1, intercalate_single]
    · have h1 : 3600 ≤ ts := by omega
      simp [formatDuration, durationParts, hh, hm, h1, intercalate_pair]

/-! ### Filter lemmas: which block produces which kind of event -/

/-- Status-block events are all presence changes. -/
lemma filter_presence_checkStatus (p : UserProfile) (d : SnapshotData) :
    (checkStatus p d).2.filter Event.isPresenceChanged = (checkStatus p d).2 := by
  rw [checkStatus_snd]
  split_ifs <;> rfl

/-- The status block emits no session events. -/
lemma filter_session_checkStatus (p : UserProfile) (d : SnapshotData) :
    (checkStatus p d).2.filter Event.isSessionEvent = [] := by
  rw [checkStatus_snd]
  split_ifs <;> rfl

/-- The status block emits no metadata events. -/
lemma filter_meta_checkStatus (p : UserProfile) (d : SnapshotData) :
    (checkStatus p d).2.filter Event.isMetadataChanged = [] := by
  rw [checkStatus_snd]
  split_ifs <;> rfl

/-- The status block contributes nothing to any field's metadata events. -/
lemma metaEventsFor_checkStatus (n : String) (p : UserProfile) (d : SnapshotData) :
    metaEventsFor n (checkStatus p d).2 = [] := by
  rw [checkStatus_snd]
  split_ifs <;> rfl

/-- Game-block events are all session events. -/
lemma filter_session_checkGame (p : UserProfile) (d : SnapshotData) (now : Nat) :
    (checkGame p d now).2.filter Event.isSessionEvent = (checkGame p d now).2 := by
  rw [checkGame_snd]
  split_ifs <;> rfl

/-- The game block emits no presence events. -/
lemma filter_presence_checkGame (p : UserProfile) (d : SnapshotData) (now : Nat) :
    (checkGame p d now).2.filter Event.isPresenceChanged = [] := by
  rw [checkGame_snd]
  split_ifs <;> rfl

/-- The game block emits no metadata events. -/
lemma filter_meta_checkGame (p : UserProfile) (d : SnapshotData) (now : Nat) :
    (checkGame p d now).2.filter Event.isMetadataChanged = [] := by
  rw [checkGame_snd]
  split_ifs <;> rfl

/-- The game block contributes nothing to any field's metadata events. -/
lemma metaEventsFor_checkGame (n : String) (p : UserProfile) (d : SnapshotData)
    (now : Nat) :
    metaEventsFor n (checkGame p d now).2 = [] := by
  rw [checkGame_snd]
  split_ifs <;> rfl

/-- A field comparison emits no presence events. -/
lemma filter_presence_diffField (n : String) (o v : Option String) :
    (diffField n o v).2.filter Event.isPresenceChanged = [] := by
  rw [diffField_eq]
  by_cases h : normVal o = normVal v <;> simp [h, Event.isPresenceChanged]

/-- A field comparison emits no session events. -/
lemma filter_session_diffField (n : String) (o v : Option String) :
    (diffField n o v).2.filter Event.isSessionEvent = [] := by
  rw [diffField_eq]
  by_cases h : normVal o = normVal v <;> simp [h, Event.isSessionEvent]

/-- Metadata-block events are all metadata events. -/
lemma filter_meta_diffField (n : String) (o v : Option String) :
    (diffField n o v).2.filter Event.isMetadataChanged = (diffField n o v).2 := by
  rw [diffField_eq]
  by_cases h : normVal o = normVal v <;> simp [h, Event.isMetadataChanged]

/-- One field comparison contributes to the metadata events of a field
name exactly when the names coincide. -/
lemma metaEventsFor_diffField (n m : String) (o v : Option String) :
    metaEventsFor n (diffField m o v).2 =
      if m = n then (diffField m o v).2 else [] := by
  rw [diffField_eq]
  by_cases hc : normVal o = normVal v
  · simp [metaEventsFor, hc]
  · by_cases hmn : m = n
    · simp [metaEventsFor, hc, hmn]
    · simp [metaEventsFor, hc, hmn]

/-- The metadata block emits no presence events. -/
lemma filter_presence_checkProfileChanges (p : UserProfile) (d : SnapshotData) :
    (checkProfileChanges p d).2.filter Event.isPresenceChanged = [] := by
  rw [checkProfileChanges_snd]
  simp [List.filter_append, filter_presence_diffField]

/-- The metadata block emits no session events. -/
lemma filter_session_checkProfileChanges (p : UserProfile) (d : SnapshotData) :
    (checkProfileChanges p d).2.filter Event.isSessionEvent = [] := by
  rw [checkProfileChanges_snd]
  simp [List.filter_append, filter_session_diffField]

/-! ### Decomposition of one whole diff cycle -/

/-- The game block's events do not depend on the persona-state update
performed by the status block before it. -/
lemma checkGame_snd_after_status (p : UserProfile) (d : SnapshotData) (now : Nat) :
    (checkGame (checkStatus p d).1 d now).2 = (checkGame p d now).2 := by
  rw [checkGame_snd, checkGame_snd, checkStatus_fst]

/-- The metadata block's events do not depend on the status and game
updates performed before it. -/
lemma checkProfileChanges_snd_after (p : UserProfile) (d : SnapshotData) (now : Nat) :
    (checkProfileChanges (checkGame (checkStatus p d).1 d now).1 d).2 =
      (checkProfileChanges p d).2 := by
  rw [checkProfileChanges_snd, checkProfileChanges_snd, checkGame_fst, checkStatus_fst]

/-- The events of one cycle are the status events, then the game
events, then the metadata events, each computed from the cycle's
initial stored state. -/
lemma checkForChanges_snd (p : UserProfile) (d : SnapshotData) (now : Nat) :
    (checkForChanges p (some d) now).2 =
      (checkStatus p d).2 ++ (checkGame p d now).2 ++ (checkProfileChanges p d).2 := by
  rw [checkForChanges_some]
  rw [checkGame_snd_after_status, checkProfileChanges_snd_after]

/-- The stored state after one cycle, field by field. -/
lemma checkForChanges_fst (p : UserProfile) (d : SnapshotData) (now : Nat) :
    (checkForChanges p (some d) now).1 =
      { steamid := p.steamid,
        personaname := (diffField "nickname" p.personaname d.personaname).1,
        realname := (diffField "real name" p.realname d.realname).1,
        country := (diffField "country" p.country d.loccountrycode).1,
        avatar := (diffField "avatar" p.avatar d.avatarfull).1,
        profile_url := (diffField "profile URL" p.profile_url d.profileurl).1,
        persona_state := d.personastate.getD 0,
        game_name := d.gameextrainfo,
        game_start_time :=
          if d.gameextrainfo ≠ p.game_name ∧ truthy d.gameextrainfo = true then some now
          else p.game_start_time } := by
  rw [checkForChanges_some]
  rw [checkProfileChanges_fst, checkGame_fst, checkStatus_fst]

/-! ### A cycle on a state that already agrees with the snapshot -/

/-- When the stored raw status already equals the fetched one, the
status block is a no-op. -/
lemma checkStatus_noop (p : UserProfile) (d : SnapshotData)
    (h : p.persona_state = d.personastate.getD 0) :
    checkStatus p d = (p, []) := by
  simp [checkStatus, h]

/-- When the stored game already equals the fetched one, the game block
is a no-op. -/
lemma checkGame_noop (p : UserProfile) (d : SnapshotData) (now : Nat)
    (h : p.game_name = d.gameextrainfo) :
    checkGame p d now = (p, []) := by
  simp [checkGame, h]

/-- When every stored metadata field normalizes to the fetched one, the
metadata block is a no-op. -/
lemma checkProfileChanges_noop (p : UserProfile) (d : SnapshotData)
    (h1 : normVal p.personaname = normVal d.personaname)
    (h2 : normVal p.realname = normVal d.realname)
    (h3 : normVal p.country = normVal d.loccountrycode)
    (h4 : normVal p.profile_url = normVal d.profileurl)
    (h5 : normVal p.avatar = normVal d.avatarfull) :
    checkProfileChanges p d = (p, []) := by
  simp only [checkProfileChanges, diffField_eq_of_norm _ _ _ h1,
    diffField_eq_of_norm _ _ _ h2, diffField_eq_of_norm _ _ _ h3,
    diffField_eq_of_norm _ _ _ h4, diffField_eq_of_norm _ _ _ h5]
  rfl

/-- A full cycle on a state that agrees with the snapshot in every
compared field changes nothing and emits nothing. -/
lemma checkForChanges_noop (p : UserProfile) (d : SnapshotData) (now : Nat)
    (hps : p.persona_state = d.personastate.getD 0)
    (hg : p.game_name = d.gameextrainfo)
    (h1 : normVal p.personaname = normVal d.personaname)
    (h2 : normVal p.realname = normVal d.realname)
    (h3 : normVal p.country = normVal d.loccountrycode)
    (h4 : normVal p.profile_url = normVal d.profileurl)
    (h5 : normVal p.avatar = normVal d.avatarfull) :
    checkForChanges p (some d) now = (p, []) := by
  simp only [checkForChanges, checkStatus_noop p d hps, checkGame_noop p d now hg,
    checkProfileChanges_noop p d h1 h2 h3 h4 h5]
  rfl

/-- The state after a cycle stores the fetched raw status code. -/
lemma post_persona (p : UserProfile) (d : SnapshotData) (now : Nat) :
    (checkForChanges p (some d) now).1.persona_state = d.personastate.getD 0 := by
  rw [checkForChanges_fst]

/-- The state after a cycle stores the fetched game value. -/
lemma post_game (p : UserProfile) (d : SnapshotData) (now : Nat) :
    (checkForChanges p (some d) now).1.game_name = d.gameextrainfo := by
  rw [checkForChanges_fst]

/-- After a cycle, each stored metadata field normalizes to the fetched
value's normalization: nickname. -/
lemma post_personaname (p : UserProfile) (d : SnapshotData) (now : Nat) :
    normVal (checkForChanges p (some d) now).1.personaname = normVal d.personaname := by
  rw [checkForChanges_fst]
  exact diffField_fst_norm _ _ _

/-- After a cycle, the stored real name normalizes to the fetched one. -/
lemma post_realname (p : UserProfile) (d : SnapshotData) (now : Nat) :
    normVal (checkForChanges p (some d) now).1.realname = normVal d.realname := by
  rw [checkForChanges_fst]
  exact diffField_fst_norm _ _ _

/-- After a cycle, the stored country normalizes to the fetched one. -/
lemma post_country (p : UserProfile) (d : SnapshotData) (now : Nat) :
    normVal (checkForChanges p (some d) now).1.country = normVal d.loccountrycode := by
  rw [checkForChanges_fst]
  exact diffField_fst_norm _ _ _

/-- After a cycle, the stored profile URL normalizes to the fetched one. -/
lemma post_profile_url (p : UserProfile) (d : SnapshotData) (now : Nat) :
    normVal (checkForChanges p (some d) now).1.profile_url = normVal d.profileurl := by
  rw [checkForChanges_fst]
  exact diffField_fst_norm _ _ _

/-- After a cycle, the stored avatar normalizes to the fetched one. -/
lemma post_avatar (p : UserProfile) (d : SnapshotData) (now : Nat) :
    normVal (checkForChanges p (some d) now).1.avatar = normVal d.avatarfull := by
  rw [checkForChanges_fst]
  exact diffField_fst_norm _ _ _

/-! ### Selecting one kind of event out of a whole cycle -/

/-- The presence events of a cycle are exactly the status block's
events. -/
lemma presence_events_cycle (p : UserProfile) (d : SnapshotData) (now : Nat) :
    (checkForChanges p (some d) now).2.filter Event.isPresenceChanged =
      (checkStatus p d).2 := by
  rw [checkForChanges_snd]
  simp only [List.filter_append]
  rw [filter_presence_checkStatus, filter_presence_checkGame,
    filter_presence_checkProfileChanges]
  simp

/-- The session events of a cycle are exactly the game block's events. -/
lemma session_events_cycle (p : UserProfile) (d : SnapshotData) (now : Nat) :
    (checkForChanges p (some d) now).2.filter Event.isSessionEvent =
      (checkGame p d now).2 := by
  rw [checkForChanges_snd]
  simp only [List.filter_append]
  rw [filter_session_checkStatus, filter_session_checkGame,
    filter_session_checkProfileChanges]
  simp

/-- Selecting a field's metadata events distributes over concatenation. -/
lemma metaEventsFor_append (n : String) (xs ys : List Event) :
    metaEventsFor n (xs ++ ys) = metaEventsFor n xs ++ metaEventsFor n ys := by
  simp [metaEventsFor, List.filter_append]

/-- A comparison of a differently named field contributes nothing to a
field's metadata events. -/
lemma metaEventsFor_ne (n m : String) (h : m ≠ n) (o v : Option String) :
    metaEventsFor n (diffField m o v).2 = [] := by
  rw [metaEventsFor_diffField, if_neg h]

/-- A field's own comparison contributes all its events. -/
lemma metaEventsFor_self (m : String) (o v : Option String) :
    metaEventsFor m (diffField m o v).2 = (diffField m o v).2 := by
  rw [metaEventsFor_diffField, if_pos rfl]

/-- The "nickname" metadata events of a cycle come from the nickname
comparison alone. -/
lemma metaEventsFor_cycle_nickname (p : UserProfile) (d : SnapshotData) (now : Nat) :
    metaEventsFor "nickname" (checkForChanges p (some d) now).2 =
      (diffField "nickname" p.personaname d.personaname).2 := by
  rw [checkForChanges_snd]
  simp only [metaEventsFor_append]
  rw [metaEventsFor_checkStatus, metaEventsFor_checkGame, checkProfileChanges_snd]
  simp only [metaEventsFor_append]
  rw [metaEventsFor_self, metaEventsFor_ne _ _ (by decide), metaEventsFor_ne _ _ (by decide),
    metaEventsFor_ne _ _ (by decide), metaEventsFor_ne _ _ (by decide)]
  simp

/-- The "real name" metadata events of a cycle come from the real-name
comparison alone. -/
lemma metaEventsFor_cycle_realname (p : UserProfile) (d : SnapshotData) (now : Nat) :
    metaEventsFor "real name" (checkForChanges p (some d) now).2 =
      (diffField "real name" p.realname d.realname).2 := by
  rw [checkForChanges_snd]
  simp only [metaEventsFor_append]
  rw [metaEventsFor_checkStatus, metaEventsFor_checkGame, checkProfileChanges_snd]
  simp only [metaEventsFor_append]
  rw [metaEventsFor_ne _ _ (by decide), metaEventsFor_self, metaEventsFor_ne _ _ (by decide),
    metaEventsFor_ne _ _ (by decide), metaEventsFor_ne _ _ (by decide)]
  simp

/-- The "country" metadata events of a cycle come from the country
comparison alone. -/
lemma metaEventsFor_cycle_country (p : UserProfile) (d : SnapshotData) (now : Nat) :
    metaEventsFor "country" (checkForChanges p (some d) now).2 =
      (diffField "country" p.country d.loccountrycode).2 := by
  rw [checkForChanges_snd]
  simp only [metaEventsFor_append]
  rw [metaEventsFor_checkStatus, metaEventsFor_checkGame, checkProfileChanges_snd]
  simp only [metaEventsFor_append]
  rw [metaEventsFor_ne _ _ (by decide), metaEventsFor_ne _ _ (by decide), metaEventsFor_self,
    metaEventsFor_ne _ _ (by decide), metaEventsFor_ne _ _ (by decide)]
  simp

/-- The "profile URL" metadata events of a cycle come from the
profile-URL comparison alone. -/
lemma metaEventsFor_cycle_profile_url (p : UserProfile) (d : SnapshotData) (now : Nat) :
    metaEventsFor "profile URL" (checkForChanges p (some d) now).2 =
      (diffField "profile URL" p.profile_url d.profileurl).2 := by
  rw [checkForChanges_snd]
  simp only [metaEventsFor_append]
  rw [metaEventsFor_checkStatus, metaEventsFor_checkGame, checkProfileChanges_snd]
  simp only [metaEventsFor_append]
  rw [metaEventsFor_ne _ _ (by decide), metaEventsFor_ne _ _ (by decide),
    metaEventsFor_ne _ _ (by decide), metaEventsFor_self, metaEventsFor_ne _ _ (by decide)]
  simp

/-- The "avatar" metadata events of a cycle come from the avatar
comparison alone. -/
lemma metaEventsFor_cycle_avatar (p : UserProfile) (d : SnapshotData) (now : Nat) :
    metaEventsFor "avatar" (checkForChanges p (some d) now).2 =
      (diffField "avatar" p.avatar d.avatarfull).2 := by
  rw [checkForChanges_snd]
  simp only [metaEventsFor_append]
  rw [metaEventsFor_checkStatus, metaEventsFor_checkGame, checkProfileChanges_snd]
  simp only [metaEventsFor_append]
  rw [metaEventsFor_ne _ _ (by decide), metaEventsFor_ne _ _ (by decide),
    metaEventsFor_ne _ _ (by decide), metaEventsFor_ne _ _ (by decide), metaEventsFor_self]
  simp

/-! ### Claim theorems -/

/-- C1 counterexample: with "Game A" stored (session start 100) and a
snapshot reporting "Game B", the cycle emits only a `sessionStarted`
event for "Game B" and no `sessionEnded` event at all, while the claim
demands a `SessionEnded` for "Game A" followed by `SessionStarted` for
"Game B". The session start is nonetheless reset to `now`. -/
theorem game_switch_counterexample :
    (checkForChanges pGameA (some dGameB) 200).2 = [Event.sessionStarted "Game B"] ∧
    (checkForChanges pGameA (some dGameB) 200).2.filter Event.isSessionEnded = [] ∧
    (checkForChanges pGameA (some dGameB) 200).1.game_start_time = some 200 := by
  refine ⟨rfl, rfl, rfl⟩

/-- C1 (amended): for every previous state whose stored session label
is a non-empty string L1 and every snapshot whose activity label is a
different non-empty string L2, a single diff cycle emits exactly one
session event, a `sessionStarted` for L2 (no `sessionEnded` for L1 is
emitted), stores L2, and resets the stored session start to `now`. -/
theorem game_switch_emits_started_only (p : UserProfile) (d : SnapshotData) (now : Nat)
    (L1 L2 : String) (h1 : p.game_name = some L1) (hne1 : L1 ≠ "")
    (h2 : d.gameextrainfo = some L2) (hne2 : L2 ≠ "") (hdiff : L1 ≠ L2) :
    (checkForChanges p (some d) now).2.filter Event.isSessionEvent =
      [Event.sessionStarted L2] ∧
    (checkForChanges p (some d) now).1.game_name = some L2 ∧
    (checkForChanges p (some d) now).1.game_start_time = some now := by
  have ht1 : truthy p.game_name = true := by rw [h1]; simp [truthy, hne1]
  have ht2 : truthy d.gameextrainfo = true := by rw [h2]; simp [truthy, hne2]
  have hg : d.gameextrainfo ≠ p.game_name := by
    rw [h1, h2]
    intro hc
    exact hdiff (Option.some_injective _ hc).symm
  refine ⟨?_, ?_, ?_⟩
  · rw [session_events_cycle, checkGame_snd, if_neg hg,
      if_neg (by rw [ht1, ht2]; simp), if_pos ht2, h2]
    rfl
  · rw [post_game, h2]
  · simp [checkForChanges_fst, hg, ht2]

/-- C1 (amended) witness at the concrete game-A-to-game-B input. -/
theorem game_switch_emits_started_only_witness :
    (checkForChanges pGameA (some dGameB) 200).2.filter Event.isSessionEvent =
      [Event.sessionStarted "Game B"] ∧
    (checkForChanges pGameA (some dGameB) 200).1.game_name = some "Game B" ∧
    (checkForChanges pGameA (some dGameB) 200).1.game_start_time = some 200 :=
  game_switch_emits_started_only pGameA dGameB 200 "Game A" "Game B" rfl (by decide)
    rfl (by decide) (by decide)

/-- C2 counterexample: with a previous state present (never flagged
unavailable: no such flag exists) and the fetch reporting the entity
unavailable, the cycle emits zero events — the claim demands exactly
one BecameUnavailable event — and the stored presence stays at its
previous value 1 (Online) instead of being forced to the
Offline/Unknown sentinel 0. -/
theorem unavailable_counterexample :
    checkForChanges pGameA none 300 = (pGameA, []) ∧ pGameA.persona_state = 1 :=
  ⟨rfl, rfl⟩

/-- C2 (amended): when the fetch reports the tracked entity as
unavailable, `_check_for_changes` returns immediately: the cycle emits
no event of any kind (there is no BecameUnavailable event in the code),
leaves every stored field unchanged, and in particular does not force
the stored presence to any sentinel. -/
theorem unavailable_no_events_state_unchanged (p : UserProfile) (now : Nat) :
    (checkForChanges p none now).1 = p ∧
    (checkForChanges p none now).2 = [] ∧
    (checkForChanges p none now).1.persona_state = p.persona_state :=
  ⟨rfl, rfl, rfl⟩

/-- C3: presence code unchanged between two consecutive snapshots gives
zero presence-change events; a changed code gives exactly one, whose
old value is the previously stored presence rendered through the status
table; the stored presence is updated to the new raw code; and every
unmapped raw code renders as "Unknown" (total function, no error). -/
theorem presence_transition_rule (p : UserProfile) (d : SnapshotData) (now : Nat) :
    ((checkForChanges p (some d) now).2.filter Event.isPresenceChanged =
      if d.personastate.getD 0 = p.persona_state then []
      else [Event.presenceChanged (statusTextGet p.persona_state)
        (statusTextGet (d.personastate.getD 0))]) ∧
    (checkForChanges p (some d) now).1.persona_state = d.personastate.getD 0 ∧
    (∀ s : Int, s < 0 ∨ 6 < s → statusTextGet s = "Unknown") := by
  refine ⟨?_, post_persona p d now, fun s h => statusTextGet_unmapped s h⟩
  rw [presence_events_cycle]
  exact checkStatus_snd p d

/-- C3 witness: the concrete offline-to-online transition and an
unmapped code. -/
theorem presence_transition_rule_witness :
    (checkForChanges pOffline (some dOnlineSnap) 0).1.persona_state = 1 ∧
    statusTextGet 9 = "Unknown" :=
  ⟨(presence_transition_rule pOffline dOnlineSnap 0).2.1,
    (presence_transition_rule pOffline dOnlineSnap 0).2.2 9 (by decide)⟩

/-- C4: applying the diff once (yielding the mutated stored state) and
then applying the diff again with the same snapshot emits zero events
and changes nothing the second time, at any later timestamp. -/
theorem diff_idempotent (p : UserProfile) (d : SnapshotData) (now now2 : Nat) :
    checkForChanges (checkForChanges p (some d) now).1 (some d) now2 =
      ((checkForChanges p (some d) now).1, []) :=
  checkForChanges_noop _ d now2 (post_persona p d now) (post_game p d now)
    (post_personaname p d now) (post_realname p d now) (post_country p d now)
    (post_profile_url p d now) (post_avatar p d now)

/-- C5: for each of the five tracked metadata fields (with empty string
and absent normalized to the same value), exactly one metadata-change
event for that field is emitted iff the normalized old and new values
differ (so empty-to-empty never produces an event), and the stored
value is then updated to the normalized new value; the five
comparisons are independent, so changing the country alone yields
exactly one metadata event overall, for "country". -/
theorem metadata_field_rule (p : UserProfile) (d : SnapshotData) (now : Nat) :
    (metaEventsFor "nickname" (checkForChanges p (some d) now).2 =
      if normVal p.personaname = normVal d.personaname then []
      else [Event.metadataChanged "nickname" (normVal p.personaname)
        (normVal d.personaname)]) ∧
    (metaEventsFor "real name" (checkForChanges p (some d) now).2 =
      if normVal p.realname = normVal d.realname then []
      else [Event.metadataChanged "real name" (normVal p.realname)
        (normVal d.realname)]) ∧
    (metaEventsFor "country" (checkForChanges p (some d) now).2 =
      if normVal p.country = normVal d.loccountrycode then []
      else [Event.metadataChanged "country" (normVal p.country)
        (normVal d.loccountrycode)]) ∧
    (metaEventsFor "profile URL" (checkForChanges p (some d) now).2 =
      if normVal p.profile_url = normVal d.profileurl then []
      else [Event.metadataChanged "profile URL" (normVal p.profile_url)
        (normVal d.profileurl)]) ∧
    (metaEventsFor "avatar" (checkForChanges p (some d) now).2 =
      if normVal p.avatar = normVal d.avatarfull then []
      else [Event.metadataChanged "avatar" (normVal p.avatar)
        (normVal d.avatarfull)]) ∧
    ((checkForChanges p (some d) now).1.personaname =
      if normVal p.personaname = normVal d.personaname then p.personaname
      else normVal d.personaname) ∧
    ((checkForChanges p (some d) now).1.realname =
      if normVal p.realname = normVal d.realname then p.realname
      else normVal d.realname) ∧
    ((checkForChanges p (some d) now).1.country =
      if normVal p.country = normVal d.loccountrycode then p.country
      else normVal d.loccountrycode) ∧
    ((checkForChanges p (some d) now).1.profile_url =
      if normVal p.profile_url = normVal d.profileurl then p.profile_url
      else normVal d.profileurl) ∧
    ((checkForChanges p (some d) now).1.avatar =
      if normVal p.avatar = normVal d.avatarfull then p.avatar
      else normVal d.avatarfull) ∧
    (normVal p.personaname = normVal d.personaname →
      normVal p.realname = normVal d.realname →
      normVal p.profile_url = normVal d.profileurl →
      normVal p.avatar = normVal d.avatarfull →
      normVal p.country ≠ normVal d.loccountrycode →
      (checkForChanges p (some d) now).2.filter Event.isMetadataChanged =
        [Event.metadataChanged "country" (normVal p.country)
          (normVal d.loccountrycode)]) := by
  refine ⟨?_, ?_, ?_, ?_, ?_, ?_, ?_, ?_, ?_, ?_, ?_⟩
  · rw [metaEventsFor_cycle_nickname, diffField_eq]
  · rw [metaEventsFor_cycle_realname, diffField_eq]
  · rw [metaEventsFor_cycle_country, diffField_eq]
  · rw [metaEventsFor_cycle_profile_url, diffField_eq]
  · rw [metaEventsFor_cycle_avatar, diffField_eq]
  · rw [checkForChanges_fst, diffField_eq "nickname" p.personaname d.personaname]
  · rw [checkForChanges_fst, diffField_eq "real name" p.realname d.realname]
  · rw [checkForChanges_fst, diffField_eq "country" p.country d.loccountrycode]
  · rw [checkForChanges_fst, diffField_eq "profile URL" p.profile_url d.profileurl]
  · rw [checkForChanges_fst, diffField_eq "avatar" p.avatar d.avatarfull]
  · intro e1 e2 e4 e5 hne
    rw [checkForChanges_snd]
    simp only [List.filter_append]
    rw [filter_meta_checkStatus, filter_meta_checkGame, checkProfileChanges_snd]
    simp only [List.filter_append]
    rw [filter_meta_diffField, filter_meta_diffField, filter_meta_diffField,
      filter_meta_diffField, filter_meta_diffField]
    rw [diffField_eq_of_norm _ _ _ e1, diffField_eq_of_norm _ _ _ e2,
      diffField_eq_of_norm _ _ _ e4, diffField_eq_of_norm _ _ _ e5,
      diffField_eq]
    simp [hne]

/-- C5 witness: changing the country alone, US to TR. -/
theorem metadata_field_rule_witness :
    (checkForChanges pOffline (some dCountryTR) 0).2.filter Event.isMetadataChanged =
      [Event.metadataChanged "country" (some "US") (some "TR")] :=
  (metadata_field_rule pOffline dCountryTR 0).2.2.2.2.2.2.2.2.2.2 rfl rfl rfl rfl
    (by decide)

/-- C6: a session-end duration is computed in whole seconds as `now`
minus the recorded session start (a natural number, hence never
negative or wrapped); when no start timestamp was recorded it renders
as the sentinel "Unknown"; and the rendering uses at most two units —
hours with minutes from one hour up, minutes alone from one minute up,
seconds alone only under one minute. -/
theorem duration_rendering_rule (p : UserProfile) (d : SnapshotData) (now : Nat)
    (L : String) (hL : p.game_name = some L) (hne : L ≠ "")
    (hng : truthy d.gameextrainfo = false) :
    (∀ t : Nat, p.game_start_time = some t →
      (checkForChanges p (some d) now).2.filter Event.isSessionEvent =
        [Event.sessionEnded L (formatDuration (now - t))]) ∧
    (p.game_start_time = none →
      (checkForChanges p (some d) now).2.filter Event.isSessionEvent =
        [Event.sessionEnded L "Unknown"]) ∧
    (∀ ts : Nat, formatDuration ts =
      if 3600 ≤ ts then
        if ts % 3600 / 60 = 0 then toString (ts / 3600) ++ "h"
        else (toString (ts / 3600) ++ "h") ++ " " ++ (toString (ts % 3600 / 60) ++ "m")
      else if 60 ≤ ts then toString (ts / 60) ++ "m"
      else if ts = 0 then "0s"
      else toString ts ++ "s") := by
  have ht1 : truthy p.game_name = true := by rw [hL]; simp [truthy, hne]
  have hg : d.gameextrainfo ≠ p.game_name := by
    intro hc
    rw [hc, ht1] at hng
    exact Bool.noConfusion hng
  have hsess : (checkForChanges p (some d) now).2.filter Event.isSessionEvent =
      [Event.sessionEnded L
        (match p.game_start_time with
          | some t => formatDuration (now - t)
          | none => "Unknown")] := by
    rw [session_events_cycle, checkGame_snd, if_neg hg,
      if_pos (show (truthy p.game_name && !truthy d.gameextrainfo) = true by
        rw [ht1, hng]; rfl), hL]
    rfl
  refine ⟨?_, ?_, fun ts => formatDuration_eq ts⟩
  · intro t ht
    rw [hsess, ht]
  · intro ht
    rw [hsess, ht]

/-- C6 witness: "Game A" started at second 100, ends at second 225;
the duration 125 s renders as "2m". -/
theorem duration_rendering_rule_witness :
    (checkForChanges pGameA (some dNoGame) 225).2.filter Event.isSessionEvent =
      [Event.sessionEnded "Game A" (formatDuration 125)] ∧
    formatDuration 125 = "2m" :=
  ⟨(duration_rendering_rule pGameA dNoGame 225 "Game A" rfl (by decide) rfl).1 100 rfl,
    by decide⟩

/-- C7: when the fetch for a cycle fails (transport error, non-success
status, rate limiting, or no player returned), the cycle performs no
update to the stored state and emits no change event; the loop then
simply sleeps and retries on the next tick. -/
theorem fetch_failure_no_effect (p : UserProfile) (now : Nat) :
    checkForChanges p none now = (p, []) := rfl

/-- C8 counterexample: with "Game A" stored and session start 100, a
snapshot with no activity clears the stored label but leaves the
session start timestamp at 100 — after the cycle the state holds a
session start while its activity label is empty, which the claimed
invariant forbids. -/
theorem session_start_not_cleared_counterexample :
    (checkForChanges pGameA (some dNoGame) 300).1.game_name = none ∧
    (checkForChanges pGameA (some dNoGame) 300).1.game_start_time = some 100 :=
  ⟨rfl, rfl⟩

/-- C8 (amended): when the fetched activity label is empty or absent,
the cycle stores that empty label but does not clear the session start
timestamp: it retains its previous value (it is only ever overwritten
when a later cycle starts a new session), so the state can hold a
session start timestamp while its activity label is empty. -/
theorem session_start_persists (p : UserProfile) (d : SnapshotData) (now : Nat)
    (hng : truthy d.gameextrainfo = false) :
    (checkForChanges p (some d) now).1.game_start_time = p.game_start_time ∧
    (checkForChanges p (some d) now).1.game_name = d.gameextrainfo := by
  constructor
  · simp [checkForChanges_fst, hng]
  · exact post_game p d now

/-- C8 (amended) witness at the concrete stop-of-game input. -/
theorem session_start_persists_witness :
    (checkForChanges pGameA (some dNoGame) 300).1.game_start_time = some 100 ∧
    (checkForChanges pGameA (some dNoGame) 300).1.game_name = none :=
  session_start_persists pGameA dNoGame 300 rfl

/-- C9 counterexample: with a 20-second interval and a cycle that spent
5 seconds fetching and diffing, the code sleeps the full 20 seconds
while the claimed formula gives max(0, 20 - 5) = 15. -/
theorem sleep_duration_counterexample :
    (loopSleepDuration 20 5 : Int) ≠ specSleepDuration 20 5 ∧
    loopSleepDuration 20 5 = 20 ∧ specSleepDuration 20 5 = 15 := by
  refine ⟨by decide, rfl, by decide⟩

/-- C9 (amended): on every cycle the loop suspends for the full
configured interval, never consulting the time spent fetching and
diffing (and never a negative amount, trivially); consecutive cycle
starts are therefore separated by the cycle's own duration plus the
whole configured interval. -/
theorem sleep_full_interval (checkInterval : Nat) (elapsed : Nat → Nat)
    (e n : Nat) :
    loopSleepDuration checkInterval e = checkInterval ∧
    loopSleepDuration checkInterval e = loopSleepDuration checkInterval 0 ∧
    cycleStart checkInterval elapsed (n + 1) =
      cycleStart checkInterval elapsed n + elapsed n + checkInterval :=
  ⟨rfl, rfl, rfl⟩

/-- C10: presence-change detection compares raw integer codes, with the
event's old and new values rendered through the status table; hence a
transition between two distinct codes that both lie outside the mapped
range 0..6 still emits one event, rendered "Unknown" on both sides. -/
theorem presence_raw_code_comparison (p : UserProfile) (d : SnapshotData) (now : Nat) :
    (d.personastate.getD 0 ≠ p.persona_state →
      (checkForChanges p (some d) now).2.filter Event.isPresenceChanged =
        [Event.presenceChanged (statusTextGet p.persona_state)
          (statusTextGet (d.personastate.getD 0))]) ∧
    ((p.persona_state < 0 ∨ 6 < p.persona_state) →
      (d.personastate.getD 0 < 0 ∨ 6 < d.personastate.getD 0) →
      d.personastate.getD 0 ≠ p.persona_state →
      (checkForChanges p (some d) now).2.filter Event.isPresenceChanged =
        [Event.presenceChanged "Unknown" "Unknown"]) := by
  constructor
  · intro h
    rw [presence_events_cycle, checkStatus_snd, if_neg h]
  · intro h1 h2 h3
    rw [presence_events_cycle, checkStatus_snd, if_neg h3,
      statusTextGet_unmapped _ h1, statusTextGet_unmapped _ h2]

/-- C10 witness: the concrete 7-to-9 transition, both codes unmapped. -/
theorem presence_raw_code_comparison_witness :
    (checkForChanges pState7 (some dState9) 0).2.filter Event.isPresenceChanged =
      [Event.presenceChanged "Unknown" "Unknown"] :=
  (presence_raw_code_comparison pState7 dState9 0).2 (by decide) (by decide) (by decide)

end SteamTracker
